import Mathlib

/-!
# Conspektor front end: job state machine, upload, settings

A shallow embedding of `frontend/src/App.jsx` and
`frontend/src/components/SettingsPanel.jsx`.

* React state is a record (`AppState`); every `setX(v)` call, `alert`,
  `console.error` and HTTP request of a handler is an `Action`; a handler is
  the list of actions it performs, in program order, given the outcome of the
  request it awaits.  `run` folds the state writes over such a list.
* An `async` handler is cut at its single `await`: `fStart` is what runs
  synchronously up to and including the request, `fResume` is the continuation
  that runs when the request has settled, and `f = fStart ++ fResume` is the
  run in which nothing else is interleaved.
* The state is observed between handler runs: the consecutive writes of one
  synchronous block of a handler are taken together, as React commits them
  when it batches updates.
* JavaScript values are `JsVal`; numbers are integers here (nothing below
  does arithmetic on them), objects and arrays other than the ones the code
  looks into are opaque and truthy.
-/

namespace Conspektor

/-! ## JavaScript values -/

/-- JavaScript values as they occur in React state and in JSON bodies.
`undefined` is what reading a missing field gives. -/
inductive JsVal where
  | undefined
  | null
  | bool (b : Bool)
  | num (n : Int)
  | str (s : String)
  | other (tag : Nat)
  deriving DecidableEq, Repr

/-- ToBoolean of the language: `undefined`, `null`, `false`, `0` and `''` are
falsy, everything else is truthy. -/
def JsVal.truthy : JsVal → Bool
  | .undefined => false
  | .null => false
  | .bool b => b
  | .num n => n != 0
  | .str s => s != ""
  | .other _ => true

/-- The expression `a || b`. -/
def jsOr (a b : JsVal) : JsVal :=
  if a.truthy then a else b

/-- The method `s.endsWith(t)` on strings. -/
def endsWith (s t : String) : Bool :=
  t.data.isSuffixOf s.data

/-! ## Configuration objects -/

/-- Values of the settings of a configuration object. `nan` is what
`parseInt` gives on an empty number input. -/
inductive CfgVal where
  | text (s : String)
  | number (n : Int)
  | nan
  | keywords (ks : List (List Char))
  deriving DecidableEq, Repr

/-- A configuration object: its own properties, in insertion order. -/
abbrev Config := List (String × CfgVal)

/-- The object `{...prev, [key]: value}`: an existing property keeps its place
and takes the new value, a new property goes last. -/
def objSet : Config → String → CfgVal → Config
  | [], key, value => [(key, value)]
  | (k, v) :: rest, key, value =>
    if k = key then (k, value) :: rest else (k, v) :: objSet rest key value

/-! ## State and actions -/

/-- The React state of `App` (lines 13-21), together with the `localConfig`
state of `SettingsPanel`, which exists only while the panel is mounted. -/
structure AppState where
  status : JsVal
  progress : JsVal
  currentChapter : JsVal
  totalChapters : JsVal
  previewText : JsVal
  errorMessage : JsVal
  servicesReady : JsVal
  showSettings : Bool
  config : Option Config
  localConfig : Option Config
  deriving DecidableEq, Repr

/-- The initial values given to `useState` in `App`. -/
def initialState : AppState where
  status := .str "idle"
  progress := .num 0
  currentChapter := .num 0
  totalChapters := .num 0
  previewText := .str ""
  errorMessage := .null
  servicesReady := .bool false
  showSettings := false
  config := none
  localConfig := none

/-- What a handler can do: write one piece of state, show an alert (a fixed
text, followed by a value when one is appended), log, send a request, or hand
the downloaded document to the browser. -/
inductive Action where
  | setStatus (v : JsVal)
  | setProgress (v : JsVal)
  | setCurrentChapter (v : JsVal)
  | setTotalChapters (v : JsVal)
  | setPreviewText (v : JsVal)
  | setErrorMessage (v : JsVal)
  | setServicesReady (v : JsVal)
  | setShowSettings (b : Bool)
  | setConfig (c : Option Config)
  | updateLocalConfig (key : String) (value : CfgVal)
  | alert (text : String) (appended : Option JsVal)
  | consoleError (text : String)
  | request (method : String) (path : String)
  | saveAs (filename : String)
  deriving DecidableEq, Repr

/-- Whether an action is an HTTP request. -/
def Action.isRequest : Action → Bool
  | .request _ _ => true
  | _ => false

/-- Whether an action writes React state. -/
def Action.isWrite : Action → Bool
  | .alert _ _ => false
  | .consoleError _ => false
  | .request _ _ => false
  | .saveAs _ => false
  | _ => true

/-- The effect of one action on the state.  `SettingsPanel` is rendered
exactly while `showSettings` holds (App.jsx line 226): mounting it initialises
`localConfig` to `config || {}` (SettingsPanel.jsx line 5), unmounting it
drops `localConfig`, and a new `config` while it is mounted re-initialises
`localConfig` (lines 7-9).  `updateLocalConfig` is the functional update of
`handleChange` (lines 11-16). -/
def Action.apply (s : AppState) : Action → AppState
  | .setStatus v => { s with status := v }
  | .setProgress v => { s with progress := v }
  | .setCurrentChapter v => { s with currentChapter := v }
  | .setTotalChapters v => { s with totalChapters := v }
  | .setPreviewText v => { s with previewText := v }
  | .setErrorMessage v => { s with errorMessage := v }
  | .setServicesReady v => { s with servicesReady := v }
  | .setShowSettings true =>
    if s.showSettings then s
    else { s with showSettings := true, localConfig := some (s.config.getD []) }
  | .setShowSettings false => { s with showSettings := false, localConfig := none }
  | .setConfig c =>
    { s with config := c,
             localConfig := if s.showSettings then some (c.getD []) else s.localConfig }
  | .updateLocalConfig key value =>
    { s with localConfig := s.localConfig.map fun prev => objSet prev key value }
  | .alert _ _ => s
  | .consoleError _ => s
  | .request _ _ => s
  | .saveAs _ => s

/-- The state after a list of actions, performed in order. -/
def run (s : AppState) (acts : List Action) : AppState :=
  acts.foldl Action.apply s

/-! ## Status polling (App.jsx lines 24-42) -/

/-- The body of a `GET /status` response: the six fields the callback reads,
each `undefined` when the body does not have it. -/
structure Snapshot where
  status : JsVal
  progress : JsVal
  current_chapter : JsVal
  total_chapters : JsVal
  preview_text : JsVal
  error_message : JsVal
  deriving DecidableEq, Repr

/-- How the `try` block of the polling callback ends: the request resolved
with a body, or something was thrown (the request rejected, or the body was
`null` and reading a field of it threw). -/
inductive PollOutcome where
  | resolved (data : Snapshot)
  | threw
  deriving DecidableEq, Repr

/-- The request the interval callback sends (line 27, up to the `await`). -/
def pollStart : List Action :=
  [.request "GET" "/status"]

/-- The rest of the interval callback (lines 28-38). -/
def pollResume : PollOutcome → List Action
  | .resolved data =>
    [ .setStatus data.status,
      .setProgress (jsOr data.progress (.num 0)),
      .setCurrentChapter (jsOr data.current_chapter (.num 0)),
      .setTotalChapters (jsOr data.total_chapters (.num 0)),
      .setPreviewText (jsOr data.preview_text (.str "")),
      .setErrorMessage data.error_message ]
  | .threw => [.consoleError "Ошибка получения статуса:"]

/-- One run of the interval callback (lines 25-39). -/
def pollCallback (r : PollOutcome) : List Action :=
  pollStart ++ pollResume r

/-- The state after a sequence of polls, applied in the order given. -/
def pollAll (s : AppState) (rs : List PollOutcome) : AppState :=
  rs.foldl (fun st r => run st (pollCallback r)) s

/-! ## Upload (App.jsx lines 69-96) -/

/-- A `File` object, of which the handler reads only the name. -/
structure File where
  name : String
  deriving DecidableEq, Repr

/-- The body of a resolved `POST /upload` response. -/
structure UploadData where
  success : JsVal
  chapters_count : JsVal
  deriving DecidableEq, Repr

/-- The body of the response attached to a thrown error (`error.response.data`). -/
structure ErrorBody where
  detail : JsVal
  deriving DecidableEq, Repr

/-- The `response` of a thrown error; `data` is `none` when it is `null` or
`undefined`. -/
structure ErrorResponse where
  data : Option ErrorBody
  deriving DecidableEq, Repr

/-- A caught error: its `message`, and its `response` when it has one (a
rejection of the request with a status outside 2xx has one, a network error
does not). -/
structure CaughtError where
  response : Option ErrorResponse
  message : JsVal
  deriving DecidableEq, Repr

/-- The expression `error.response?.data?.detail`. -/
def CaughtError.detail (e : CaughtError) : JsVal :=
  match e.response with
  | none => .undefined
  | some r =>
    match r.data with
    | none => .undefined
    | some d => d.detail

/-- How the `try` block of `handleFileUpload` ends after the request. -/
inductive UploadOutcome where
  | resolved (data : UploadData)
  | threw (error : CaughtError)
  deriving DecidableEq, Repr

/-- The guard of line 70: `!file || !file.name.endsWith('.pdf')`. -/
def uploadRejected : Option File → Bool
  | none => true
  | some f => !endsWith f.name ".pdf"

/-- The part of `handleFileUpload` that runs before its `await` (lines 70-87). -/
def handleFileUploadStart (file : Option File) : List Action :=
  if uploadRejected file then
    [.alert "Пожалуйста, выберите PDF файл" none]
  else
    [ .setStatus (.str "processing"),
      .setProgress (.num 0),
      .setErrorMessage .null,
      .request "POST" "/upload" ]

/-- The part of `handleFileUpload` that runs after its `await` (lines 89-95). -/
def handleFileUploadResume : UploadOutcome → List Action
  | .resolved data =>
    if data.success.truthy then [.setTotalChapters data.chapters_count] else []
  | .threw error =>
    [ .setStatus (.str "error"),
      .setErrorMessage (jsOr error.detail error.message) ]

/-- The whole of `handleFileUpload`; `r` is how the request ends if one is
sent. -/
def handleFileUpload (file : Option File) (r : UploadOutcome) : List Action :=
  if uploadRejected file then handleFileUploadStart file
  else handleFileUploadStart file ++ handleFileUploadResume r

/-! ## Service check, configuration load, download (App.jsx lines 50-67, 98-116) -/

/-- The request of `checkServices` (line 52). -/
def checkServicesStart : List Action :=
  [.request "POST" "/check-services"]

/-- The rest of `checkServices` (lines 53-57); `none` is a thrown error,
`some ready` a resolved request whose body has `ready`. -/
def checkServicesResume : Option JsVal → List Action
  | some ready => [.setServicesReady ready]
  | none => [.consoleError "Ошибка проверки сервисов:", .setServicesReady (.bool false)]

/-- The request of `loadConfig` (line 62). -/
def loadConfigStart : List Action :=
  [.request "GET" "/config"]

/-- The rest of `loadConfig` (lines 63-66); `none` is a thrown error,
`some body` a resolved request (`body` is `none` for a `null` body). -/
def loadConfigResume : Option (Option Config) → List Action
  | some body => [.setConfig body]
  | none => [.consoleError "Ошибка загрузки конфигурации:"]

/-- The request of `handleDownloadDocx` (lines 100-102). -/
def handleDownloadDocxStart : List Action :=
  [.request "GET" "/download-docx"]

/-- The rest of `handleDownloadDocx` (lines 104-115); `none` is a resolved
request, `some error` a thrown error. -/
def handleDownloadDocxResume : Option CaughtError → List Action
  | none => [.saveAs "summary.docx"]
  | some error =>
    [.alert "Ошибка скачивания файла: " (some (jsOr error.detail error.message))]

/-! ## Settings (App.jsx lines 135, 226-240; SettingsPanel.jsx lines 4-20) -/

/-- The click handler of the settings button (App.jsx line 135). -/
def settingsButton (s : AppState) : List Action :=
  [.setShowSettings (!s.showSettings)]

/-- The `onClose` callback (App.jsx line 229). -/
def onClose : List Action :=
  [.setShowSettings false]

/-- The function `handleChange` of `SettingsPanel` (lines 11-16). -/
def handleChange (key : String) (value : CfgVal) : List Action :=
  [.updateLocalConfig key value]

/-- How the `try` block of `onSave` ends after the request. -/
inductive SaveOutcome where
  | resolved
  | threw (error : CaughtError)
  deriving DecidableEq, Repr

/-- The part of `onSave` before its `await` (line 232); `newConfig` is the
`localConfig` that `handleSave` passes (SettingsPanel.jsx line 19). -/
def onSaveStart (_newConfig : Config) : List Action :=
  [.request "POST" "/config"]

/-- The part of `onSave` after its `await` (lines 233-237). -/
def onSaveResume (newConfig : Config) : SaveOutcome → List Action
  | .resolved => [.setConfig (some newConfig), .setShowSettings false]
  | .threw error => [.alert "Ошибка сохранения настроек: " (some error.message)]

/-- The whole of `onSave`. -/
def onSave (newConfig : Config) (r : SaveOutcome) : List Action :=
  onSaveStart newConfig ++ onSaveResume newConfig r

/-- The function `handleSave` of `SettingsPanel` (lines 18-20): it exists
only while the panel is mounted, and submits the current `localConfig`. -/
def handleSave (s : AppState) (r : SaveOutcome) : List Action :=
  match s.localConfig with
  | none => []
  | some draft => onSave draft r

/-! ## The split-keywords field (SettingsPanel.jsx lines 100-106)

Strings are lists of characters in this part. -/

/-- The method `parts.join(sep)` on an array of strings. -/
def jsJoin (sep : List Char) : List (List Char) → List Char
  | [] => []
  | [k] => k
  | k :: rest => k ++ sep ++ jsJoin sep rest

/-- The method `s.split(sep)` for a separator of one character: the pieces
between the occurrences of `sep`; the empty string gives one empty piece. -/
def jsSplit (sep : Char) : List Char → List (List Char)
  | [] => [[]]
  | c :: cs =>
    if c = sep then [] :: jsSplit sep cs
    else
      match jsSplit sep cs with
      | [] => [[c]]
      | piece :: pieces => (c :: piece) :: pieces

/-- The characters that `trim` removes: WhiteSpace and LineTerminator of the
language, by code point. -/
def isWhiteSpace (c : Char) : Bool :=
  c.toNat ∈ [0x09, 0x0A, 0x0B, 0x0C, 0x0D, 0x20, 0xA0, 0x1680, 0x2028, 0x2029,
    0x202F, 0x205F, 0x3000, 0xFEFF] || (0x2000 ≤ c.toNat && c.toNat ≤ 0x200A)

/-- The method `s.trim()`. -/
def jsTrim (s : List Char) : List Char :=
  ((s.dropWhile isWhiteSpace).reverse.dropWhile isWhiteSpace).reverse

/-- The `value` of the input (line 102):
`localConfig.split_keywords?.join(', ') || ''`. -/
def keywordsValue (split_keywords : Option (List (List Char))) : List Char :=
  match split_keywords with
  | none => []
  | some ks => if jsJoin [',', ' '] ks = [] then [] else jsJoin [',', ' '] ks

/-- What `onChange` stores for the text of the input (line 103):
`e.target.value.split(',').map(s => s.trim())`. -/
def keywordsParse (text : List Char) : List (List Char) :=
  (jsSplit ',' text).map jsTrim

/-- The `onChange` handler of the input (line 103). -/
def keywordsChange (text : List Char) : List Action :=
  handleChange "split_keywords" (.keywords (keywordsParse text))

/-! ## Events -/

/-- What can happen to the application: a poll settles, `handleFileUpload` is
called or its request settles, one of the other requests settles, or the user
acts on the settings. -/
inductive Event where
  | poll (r : PollOutcome)
  | uploadStart (file : Option File)
  | uploadResume (r : UploadOutcome)
  | checkServices (r : Option JsVal)
  | loadConfig (r : Option (Option Config))
  | download (r : Option CaughtError)
  | settingsButton
  | closeSettings
  | change (key : String) (value : CfgVal)
  | saveStart
  | saveResume (newConfig : Config) (r : SaveOutcome)
  deriving DecidableEq, Repr

/-- The actions an event performs in a state. -/
def handle (s : AppState) : Event → List Action
  | .poll r => pollCallback r
  | .uploadStart file => handleFileUploadStart file
  | .uploadResume r => handleFileUploadResume r
  | .checkServices r => checkServicesStart ++ checkServicesResume r
  | .loadConfig r => loadConfigStart ++ loadConfigResume r
  | .download r => handleDownloadDocxStart ++ handleDownloadDocxResume r
  | .settingsButton => settingsButton s
  | .closeSettings => onClose
  | .change key value => handleChange key value
  | .saveStart => (s.localConfig.map onSaveStart).getD []
  | .saveResume newConfig r => onSaveResume newConfig r

/-- The state after one event. -/
def step (s : AppState) (e : Event) : AppState :=
  run s (handle s e)

/-- The state after a sequence of events. -/
def runEvents (s : AppState) (es : List Event) : AppState :=
  es.foldl step s

/-- A state is reachable when some sequence of events leads to it from the
initial state. -/
def Reachable (s : AppState) : Prop :=
  ∃ es : List Event, runEvents initialState es = s

/-- An error message that is present (neither `undefined` nor `null`) and is
not the empty string. -/
def JsVal.isMessage : JsVal → Bool
  | .undefined => false
  | .null => false
  | .str s => s != ""
  | _ => true

/-- The job fields of the state, in the order status, progress,
currentChapter, totalChapters, previewText, errorMessage. -/
def AppState.job (s : AppState) : JsVal × JsVal × JsVal × JsVal × JsVal × JsVal :=
  (s.status, s.progress, s.currentChapter, s.totalChapters, s.previewText, s.errorMessage)

/-- Whether an event that can put the status `error` brings a message with
it: a poll snapshot with status `error` has an `error_message` that is a
message, and a thrown upload error has a detail or message that is one. -/
def Event.bringsMessage : Event → Bool
  | .poll (.resolved d) => d.status != .str "error" || d.error_message.isMessage
  | .uploadResume (.threw error) => (jsOr error.detail error.message).isMessage
  | _ => true

/-! ## Auxiliary facts -/

theorem run_append (s : AppState) (xs ys : List Action) :
    run s (xs ++ ys) = run (run s xs) ys := by
  simp [run, List.foldl_append]

theorem pollAll_append (s : AppState) (xs ys : List PollOutcome) :
    pollAll s (xs ++ ys) = pollAll (pollAll s xs) ys := by
  simp [pollAll, List.foldl_append]

theorem run_poll_threw (s : AppState) : run s (pollCallback .threw) = s := rfl

theorem pollAll_threw (s : AppState) (k : Nat) :
    pollAll s (List.replicate k .threw) = s := by
  induction k with
  | zero => rfl
  | succ n ih =>
    rw [List.replicate_succ]
    show pollAll (run s (pollCallback .threw)) (List.replicate n .threw) = s
    rw [run_poll_threw, ih]

theorem status_poll_resolved (s : AppState) (d : Snapshot) :
    (run s (pollCallback (.resolved d))).status = d.status := rfl

theorem jsOr_cases (v dflt : JsVal) :
    jsOr v dflt =
      if v = .undefined ∨ v = .null ∨ v = .bool false ∨ v = .num 0 ∨ v = .str "" then dflt
      else v := by
  cases v with
  | undefined => simp [jsOr, JsVal.truthy]
  | null => simp [jsOr, JsVal.truthy]
  | bool b => cases b <;> simp [jsOr, JsVal.truthy]
  | num n => by_cases h : n = 0 <;> simp [jsOr, JsVal.truthy, h]
  | str t => by_cases h : t = "" <;> simp [jsOr, JsVal.truthy, h]
  | other k => simp [jsOr, JsVal.truthy]

/-! ## Polling -/

/-- C2: a status poll whose request fails performs no state write and leaves
the whole state, hence status, progress, currentChapter, totalChapters,
previewText and errorMessage, as it was. -/
theorem poll_failure_leaves_state_unchanged (s : AppState) :
    run s (pollCallback .threw) = s ∧
    (run s (pollCallback .threw)).job = s.job ∧
    (pollCallback .threw).all (fun a => !a.isWrite) = true :=
  ⟨rfl, rfl, by decide⟩

/-- C6: applying a received snapshot gives, from any two prior states, the
same job fields, namely the fields of the snapshot with `0`, `0`, `0` and `''`
in place of a falsy progress, chapter counter or preview text; and after any
sequence of polls the progress is that of the last snapshot applied. -/
theorem poll_snapshot_replaces_job_fields (s₁ s₂ : AppState) (d : Snapshot)
    (rs : List PollOutcome) (k : Nat) :
    (run s₁ (pollCallback (.resolved d))).job =
      (d.status, jsOr d.progress (.num 0), jsOr d.current_chapter (.num 0),
        jsOr d.total_chapters (.num 0), jsOr d.preview_text (.str ""), d.error_message) ∧
    (run s₁ (pollCallback (.resolved d))).job = (run s₂ (pollCallback (.resolved d))).job ∧
    (∀ v dflt : JsVal, jsOr v dflt =
      if v = .undefined ∨ v = .null ∨ v = .bool false ∨ v = .num 0 ∨ v = .str "" then dflt
      else v) ∧
    (pollAll s₁ (rs ++ [.resolved d] ++ List.replicate k .threw)).progress =
      jsOr d.progress (.num 0) := by
  refine ⟨rfl, rfl, jsOr_cases, ?_⟩
  rw [pollAll_append, pollAll_threw, pollAll_append]
  rfl

theorem pollAll_status_of_agree (v : JsVal) (rs : List PollOutcome) :
    ∀ s : AppState, s.status = v →
      (∀ d : Snapshot, PollOutcome.resolved d ∈ rs → d.status = v) →
      (pollAll s rs).status = v := by
  induction rs with
  | nil => intro s hs _; exact hs
  | cons r rest ih =>
    intro s hs h
    show (pollAll (run s (pollCallback r)) rest).status = v
    apply ih
    · cases r with
      | resolved d => exact h d (List.mem_cons_self _ _)
      | threw => exact hs
    · intro d hd
      exact h d (List.mem_cons_of_mem _ hd)

/-- C1, as stated, fails: after a `completed` snapshot has been applied, a
`processing` snapshot applied later sets the status back to `processing`. -/
theorem terminal_status_overwritten_by_later_poll :
    (pollAll initialState
      [.resolved ⟨.str "completed", .num 100, .num 5, .num 5, .str "", .null⟩]).status
        = .str "completed" ∧
    (pollAll initialState
      [.resolved ⟨.str "completed", .num 100, .num 5, .num 5, .str "", .null⟩,
       .resolved ⟨.str "processing", .num 40, .num 2, .num 5, .str "", .null⟩]).status
        = .str "processing" ∧
    (pollAll initialState
      [.resolved ⟨.str "completed", .num 100, .num 5, .num 5, .str "", .null⟩,
       .resolved ⟨.str "processing", .num 40, .num 2, .num 5, .str "", .null⟩]).status
        ≠ .str "completed" := by
  decide

/-- C1, amended: under polling the status is that of the last response
applied.  Once a `completed` or `error` response has been applied, the status
keeps that value through poll failures and through later responses that report
the same status; a later response with another status replaces it. -/
theorem terminal_status_kept_while_polls_agree (s : AppState) (d : Snapshot)
    (rs : List PollOutcome)
    (_hd : d.status = .str "completed" ∨ d.status = .str "error")
    (hrs : ∀ e : Snapshot, PollOutcome.resolved e ∈ rs → e.status = d.status) :
    (pollAll (run s (pollCallback (.resolved d))) rs).status = d.status ∧
    ∀ e : Snapshot,
      (pollAll (run s (pollCallback (.resolved d))) (rs ++ [.resolved e])).status
        = e.status := by
  refine ⟨pollAll_status_of_agree d.status rs _ rfl hrs, ?_⟩
  intro e
  rw [pollAll_append]
  rfl

theorem terminal_status_kept_while_polls_agree_witness :
    ((JsVal.str "error" = .str "completed" ∨ JsVal.str "error" = .str "error") ∧
     (∀ e : Snapshot,
        PollOutcome.resolved e ∈
          [.threw, .resolved ⟨.str "error", .num 0, .num 0, .num 0, .str "", .str "boom"⟩] →
        e.status = .str "error")) ∧
    (pollAll (run initialState (pollCallback
        (.resolved ⟨.str "error", .num 40, .num 2, .num 5, .str "", .str "boom"⟩)))
      [.threw, .resolved ⟨.str "error", .num 0, .num 0, .num 0, .str "", .str "boom"⟩]).status
        = .str "error" := by
  have h₁ : JsVal.str "error" = .str "completed" ∨ JsVal.str "error" = .str "error" :=
    Or.inr rfl
  have h₂ : ∀ e : Snapshot,
      PollOutcome.resolved e ∈
        [.threw, .resolved ⟨.str "error", .num 0, .num 0, .num 0, .str "", .str "boom"⟩] →
      e.status = .str "error" := by
    intro e he
    simp at he
    subst he
    rfl
  exact ⟨⟨h₁, h₂⟩, (terminal_status_kept_while_polls_agree initialState
    ⟨.str "error", .num 40, .num 2, .num 5, .str "", .str "boom"⟩
    [.threw, .resolved ⟨.str "error", .num 0, .num 0, .num 0, .str "", .str "boom"⟩]
    h₁ h₂).1⟩

/-- C7, as stated, fails: in the state reached by the poll of scenario A
(40 %, chapter 2 of 5), the snapshot `completed` with progress 100 and no
chapter counters leaves progress 100 and both chapter counters 0. -/
theorem completed_snapshot_does_not_freeze_progress :
    (pollAll initialState
      [.resolved ⟨.str "processing", .num 40, .num 2, .num 5, .str "...", .undefined⟩]).job
        = (.str "processing", .num 40, .num 2, .num 5, .str "...", .undefined) ∧
    (pollAll initialState
      [.resolved ⟨.str "processing", .num 40, .num 2, .num 5, .str "...", .undefined⟩,
       .resolved ⟨.str "completed", .num 100, .undefined, .undefined, .undefined,
         .undefined⟩]).job
        = (.str "completed", .num 100, .num 0, .num 0, .str "", .undefined) := by
  decide

/-- C7, amended: when a snapshot with status `completed` is applied in a
`processing` state, the status becomes `completed` and progress,
currentChapter and totalChapters take the values of the snapshot (`0` for a
falsy one); they keep their earlier values exactly when the snapshot repeats
them. -/
theorem completed_snapshot_sets_progress_fields (s : AppState) (d : Snapshot)
    (_hs : s.status = .str "processing") (hd : d.status = .str "completed") :
    (run s (pollCallback (.resolved d))).status = .str "completed" ∧
    (run s (pollCallback (.resolved d))).progress = jsOr d.progress (.num 0) ∧
    (run s (pollCallback (.resolved d))).currentChapter = jsOr d.current_chapter (.num 0) ∧
    (run s (pollCallback (.resolved d))).totalChapters = jsOr d.total_chapters (.num 0) ∧
    (((run s (pollCallback (.resolved d))).progress = s.progress ∧
      (run s (pollCallback (.resolved d))).currentChapter = s.currentChapter ∧
      (run s (pollCallback (.resolved d))).totalChapters = s.totalChapters) ↔
     (jsOr d.progress (.num 0) = s.progress ∧
      jsOr d.current_chapter (.num 0) = s.currentChapter ∧
      jsOr d.total_chapters (.num 0) = s.totalChapters)) :=
  ⟨hd, rfl, rfl, rfl, Iff.rfl⟩

theorem completed_snapshot_sets_progress_fields_witness :
    ({ initialState with status := .str "processing", progress := .num 40 } : AppState).status
        = .str "processing" ∧
    (run { initialState with status := .str "processing", progress := .num 40 }
      (pollCallback (.resolved
        ⟨.str "completed", .num 100, .num 5, .num 5, .str "", .null⟩))).progress
        = .num 100 :=
  ⟨rfl, (completed_snapshot_sets_progress_fields
    { initialState with status := .str "processing", progress := .num 40 }
    ⟨.str "completed", .num 100, .num 5, .num 5, .str "", .null⟩ rfl rfl).2.1⟩

/-! ## Upload -/

theorem uploadRejected_of_bad_file (file : Option File)
    (h : file = none ∨ ∃ f : File, file = some f ∧ endsWith f.name ".pdf" = false) :
    uploadRejected file = true := by
  rcases h with h | ⟨f, hf, hn⟩
  · subst h; rfl
  · subst hf; simp [uploadRejected, hn]

/-- C3: for a missing file and for a file whose name does not end in `.pdf`,
`handleFileUpload` performs exactly one action, the validation alert: it sends
no request and leaves the state unchanged, whatever the state is. -/
theorem upload_of_non_pdf_only_alerts (s : AppState) (file : Option File)
    (r : UploadOutcome)
    (h : file = none ∨ ∃ f : File, file = some f ∧ endsWith f.name ".pdf" = false) :
    handleFileUpload file r = [.alert "Пожалуйста, выберите PDF файл" none] ∧
    (handleFileUpload file r).all (fun a => !a.isRequest) = true ∧
    (handleFileUpload file r).all (fun a => !a.isWrite) = true ∧
    run s (handleFileUpload file r) = s := by
  have hr := uploadRejected_of_bad_file file h
  have hl : handleFileUpload file r = [.alert "Пожалуйста, выберите PDF файл" none] := by
    simp [handleFileUpload, handleFileUploadStart, hr]
  rw [hl]
  exact ⟨rfl, by decide, by decide, rfl⟩

theorem upload_of_non_pdf_only_alerts_witness :
    ((some ⟨"notes.txt"⟩ : Option File) = none ∨
      ∃ f : File, (some ⟨"notes.txt"⟩ : Option File) = some f ∧
        endsWith f.name ".pdf" = false) ∧
    run initialState (handleFileUpload (some ⟨"notes.txt"⟩)
      (.resolved ⟨.bool true, .num 5⟩)) = initialState ∧
    (handleFileUpload (some ⟨"notes.txt"⟩) (.resolved ⟨.bool true, .num 5⟩)).all
      (fun a => !a.isRequest) = true :=
  have h : (some ⟨"notes.txt"⟩ : Option File) = none ∨
      ∃ f : File, (some ⟨"notes.txt"⟩ : Option File) = some f ∧
        endsWith f.name ".pdf" = false :=
    Or.inr ⟨⟨"notes.txt"⟩, rfl, by decide⟩
  ⟨h, (upload_of_non_pdf_only_alerts initialState (some ⟨"notes.txt"⟩)
        (.resolved ⟨.bool true, .num 5⟩) h).2.2.2,
      (upload_of_non_pdf_only_alerts initialState (some ⟨"notes.txt"⟩)
        (.resolved ⟨.bool true, .num 5⟩) h).2.1⟩

/-- C4: for a file whose name ends in `.pdf`, `handleFileUpload` writes status
`processing`, progress `0` and errorMessage `null` and only then sends the
upload request; and when the request resolves with `success: true` and
`chapters_count: n`, with nothing else applied in between, the state has
status `processing`, progress `0`, errorMessage `null` and totalChapters `n`. -/
theorem upload_of_pdf_is_optimistic (s : AppState) (f : File) (n : JsVal)
    (h : endsWith f.name ".pdf" = true) :
    (∃ writes : List Action,
      handleFileUploadStart (some f) = writes ++ [.request "POST" "/upload"] ∧
      writes.all (fun a => !a.isRequest) = true ∧
      (run s writes).status = .str "processing" ∧
      (run s writes).progress = .num 0 ∧
      (run s writes).errorMessage = .null) ∧
    handleFileUpload (some f) (.resolved ⟨.bool true, n⟩) =
      handleFileUploadStart (some f) ++ handleFileUploadResume (.resolved ⟨.bool true, n⟩) ∧
    (run s (handleFileUpload (some f) (.resolved ⟨.bool true, n⟩))).status
      = .str "processing" ∧
    (run s (handleFileUpload (some f) (.resolved ⟨.bool true, n⟩))).progress = .num 0 ∧
    (run s (handleFileUpload (some f) (.resolved ⟨.bool true, n⟩))).errorMessage = .null ∧
    (run s (handleFileUpload (some f) (.resolved ⟨.bool true, n⟩))).totalChapters = n := by
  have hr : uploadRejected (some f) = false := by simp [uploadRejected, h]
  have hs : handleFileUploadStart (some f) =
      [.setStatus (.str "processing"), .setProgress (.num 0), .setErrorMessage .null] ++
        [.request "POST" "/upload"] := by
    simp [handleFileUploadStart, hr]
  have hl : handleFileUpload (some f) (.resolved ⟨.bool true, n⟩) =
      [.setStatus (.str "processing"), .setProgress (.num 0), .setErrorMessage .null,
        .request "POST" "/upload", .setTotalChapters n] := by
    simp [handleFileUpload, handleFileUploadStart, handleFileUploadResume, hr, JsVal.truthy]
  refine ⟨⟨_, hs, by decide, rfl, rfl, rfl⟩, ?_, ?_⟩
  · simp [handleFileUpload, hr]
  · rw [hl]
    exact ⟨rfl, rfl, rfl, rfl⟩

theorem upload_of_pdf_is_optimistic_witness :
    endsWith (File.mk "book.pdf").name ".pdf" = true ∧
    (run initialState
      (handleFileUpload (some ⟨"book.pdf"⟩) (.resolved ⟨.bool true, .num 5⟩))).totalChapters
        = .num 5 :=
  ⟨by decide,
    (upload_of_pdf_is_optimistic initialState ⟨"book.pdf"⟩ (.num 5) (by decide)).2.2.2.2.2⟩

/-- C5, as stated, fails: an accepted upload whose request resolves with
`success: false` leaves the status `processing` and the errorMessage `null`. -/
theorem upload_resolved_without_success_is_no_error :
    uploadRejected (some ⟨"book.pdf"⟩) = false ∧
    (run initialState
      (handleFileUpload (some ⟨"book.pdf"⟩) (.resolved ⟨.bool false, .undefined⟩))).status
        = .str "processing" ∧
    (run initialState
      (handleFileUpload (some ⟨"book.pdf"⟩) (.resolved ⟨.bool false, .undefined⟩))).status
        ≠ .str "error" ∧
    (run initialState
      (handleFileUpload (some ⟨"book.pdf"⟩) (.resolved ⟨.bool false, .undefined⟩))).errorMessage
        = .null := by
  decide

/-- C5, amended: for every accepted upload whose request throws (a network
error, or a response outside 2xx), the resulting state has status `error` and
errorMessage `error.response?.data?.detail || error.message`: the detail of
the server when it is truthy, otherwise the message of the error. -/
theorem upload_failure_sets_error (s : AppState) (f : File) (error : CaughtError)
    (h : endsWith f.name ".pdf" = true) :
    (run s (handleFileUpload (some f) (.threw error))).status = .str "error" ∧
    (run s (handleFileUpload (some f) (.threw error))).errorMessage =
      (if error.detail.truthy then error.detail else error.message) ∧
    (error.response = none → error.detail = .undefined ∧
      (run s (handleFileUpload (some f) (.threw error))).errorMessage = error.message) := by
  have hr : uploadRejected (some f) = false := by simp [uploadRejected, h]
  have hl : handleFileUpload (some f) (.threw error) =
      [.setStatus (.str "processing"), .setProgress (.num 0), .setErrorMessage .null,
        .request "POST" "/upload", .setStatus (.str "error"),
        .setErrorMessage (jsOr error.detail error.message)] := by
    simp [handleFileUpload, handleFileUploadStart, handleFileUploadResume, hr]
  rw [hl]
  refine ⟨rfl, rfl, ?_⟩
  intro hn
  have hd : error.detail = .undefined := by simp [CaughtError.detail, hn]
  refine ⟨hd, ?_⟩
  show jsOr error.detail error.message = error.message
  simp [hd, jsOr, JsVal.truthy]

theorem upload_failure_sets_error_witness :
    endsWith (File.mk "book.pdf").name ".pdf" = true ∧
    (run initialState (handleFileUpload (some ⟨"book.pdf"⟩)
      (.threw ⟨some ⟨some ⟨.str "Файл не является PDF"⟩⟩,
        .str "Request failed with status code 400"⟩))).errorMessage
      = .str "Файл не является PDF" :=
  ⟨by decide,
    (upload_failure_sets_error initialState ⟨"book.pdf"⟩
      ⟨some ⟨some ⟨.str "Файл не является PDF"⟩⟩, .str "Request failed with status code 400"⟩
      (by decide)).2.1⟩

/-! ## Error messages -/

theorem step_keeps_message (s : AppState) (e : Event)
    (hs : s.status = .str "error" → s.errorMessage.isMessage = true)
    (he : e.bringsMessage = true) :
    (step s e).status = .str "error" → (step s e).errorMessage.isMessage = true := by
  cases e with
  | poll r =>
    cases r with
    | resolved d =>
      intro h
      have h' : d.status = .str "error" := h
      show d.error_message.isMessage = true
      simpa [Event.bringsMessage, h'] using he
    | threw => exact hs
  | uploadStart file =>
    by_cases hr : uploadRejected file = true
    · have : step s (.uploadStart file) = s := by
        simp [step, handle, handleFileUploadStart, hr, run, Action.apply]
      rw [this]; exact hs
    · have : (step s (.uploadStart file)).status = .str "processing" := by
        simp [step, handle, handleFileUploadStart, hr, run, Action.apply]
      intro h
      rw [this] at h
      exact absurd h (by decide)
  | uploadResume r =>
    cases r with
    | resolved data =>
      by_cases ht : data.success.truthy = true
      · have h₁ : (step s (.uploadResume (.resolved data))).status = s.status := by
          simp [step, handle, handleFileUploadResume, ht, run, Action.apply]
        have h₂ : (step s (.uploadResume (.resolved data))).errorMessage = s.errorMessage := by
          simp [step, handle, handleFileUploadResume, ht, run, Action.apply]
        rw [h₁, h₂]; exact hs
      · have : step s (.uploadResume (.resolved data)) = s := by
          simp [step, handle, handleFileUploadResume, ht, run]
        rw [this]; exact hs
    | threw error =>
      intro _
      exact he
  | checkServices r => cases r <;> exact hs
  | loadConfig r => cases r <;> exact hs
  | download r => cases r <;> exact hs
  | settingsButton =>
    cases hb : s.showSettings
    · have h₁ : (step s .settingsButton).status = s.status := by
        simp [step, handle, settingsButton, hb, run, Action.apply]
      have h₂ : (step s .settingsButton).errorMessage = s.errorMessage := by
        simp [step, handle, settingsButton, hb, run, Action.apply]
      rw [h₁, h₂]; exact hs
    · have h₁ : (step s .settingsButton).status = s.status := by
        simp [step, handle, settingsButton, hb, run, Action.apply]
      have h₂ : (step s .settingsButton).errorMessage = s.errorMessage := by
        simp [step, handle, settingsButton, hb, run, Action.apply]
      rw [h₁, h₂]; exact hs
  | closeSettings => exact hs
  | change key value => exact hs
  | saveStart =>
    cases hl : s.localConfig with
    | none =>
      have : step s .saveStart = s := by simp [step, handle, hl, run]
      rw [this]; exact hs
    | some c =>
      have : step s .saveStart = s := by
        simp [step, handle, hl, run, onSaveStart, Action.apply]
      rw [this]; exact hs
  | saveResume newConfig r => cases r <;> exact hs

theorem runEvents_keeps_message (es : List Event) :
    ∀ s : AppState, (s.status = .str "error" → s.errorMessage.isMessage = true) →
      (∀ e ∈ es, e.bringsMessage = true) →
      (runEvents s es).status = .str "error" →
      (runEvents s es).errorMessage.isMessage = true := by
  induction es with
  | nil => intro s hs _; exact hs
  | cons e rest ih =>
    intro s hs h
    show (runEvents (step s e) rest).status = .str "error" → _
    exact ih (step s e) (step_keeps_message s e hs (h e (List.mem_cons_self _ _)))
      (fun x hx => h x (List.mem_cons_of_mem _ hx))

/-- C8, as stated, fails: from the initial state, one poll whose snapshot has
status `error` and no `error_message` gives status `error` with errorMessage
`undefined`. -/
theorem error_status_without_message :
    Reachable (runEvents initialState
      [.poll (.resolved ⟨.str "error", .undefined, .undefined, .undefined, .undefined,
        .undefined⟩)]) ∧
    (runEvents initialState
      [.poll (.resolved ⟨.str "error", .undefined, .undefined, .undefined, .undefined,
        .undefined⟩)]).status = .str "error" ∧
    (runEvents initialState
      [.poll (.resolved ⟨.str "error", .undefined, .undefined, .undefined, .undefined,
        .undefined⟩)]).errorMessage = .undefined ∧
    (runEvents initialState
      [.poll (.resolved ⟨.str "error", .undefined, .undefined, .undefined, .undefined,
        .undefined⟩)]).errorMessage.isMessage = false :=
  ⟨⟨_, rfl⟩, by decide, by decide, by decide⟩

/-- C8, amended: in every state reached from the initial state by events in
which every applied poll snapshot with status `error` carries a present,
non-empty `error_message` and every thrown upload error has a present,
non-empty detail or message, status `error` implies that errorMessage is
present and non-empty. -/
theorem error_status_has_message_when_events_bring_one (es : List Event)
    (h : ∀ e ∈ es, e.bringsMessage = true)
    (herr : (runEvents initialState es).status = .str "error") :
    (runEvents initialState es).errorMessage.isMessage = true :=
  runEvents_keeps_message es initialState (fun h₀ => absurd h₀ (by decide)) h herr

theorem error_status_has_message_when_events_bring_one_witness :
    ((∀ e ∈ [Event.uploadStart (some ⟨"book.pdf"⟩),
        Event.uploadResume (.threw ⟨none, .str "Network Error"⟩), Event.poll .threw],
        e.bringsMessage = true) ∧
      (runEvents initialState [Event.uploadStart (some ⟨"book.pdf"⟩),
        Event.uploadResume (.threw ⟨none, .str "Network Error"⟩), Event.poll .threw]).status
          = .str "error") ∧
    (runEvents initialState [Event.uploadStart (some ⟨"book.pdf"⟩),
        Event.uploadResume (.threw ⟨none, .str "Network Error"⟩),
        Event.poll .threw]).errorMessage.isMessage = true :=
  ⟨⟨by decide, by decide⟩,
    error_status_has_message_when_events_bring_one
      [Event.uploadStart (some ⟨"book.pdf"⟩),
        Event.uploadResume (.threw ⟨none, .str "Network Error"⟩), Event.poll .threw]
      (by decide) (by decide)⟩

/-! ## Settings -/

theorem step_config (s : AppState) (e : Event) :
    (step s e).config = s.config ∨
    (∃ body : Option Config, e = .loadConfig (some body)) ∨
    (∃ c : Config, e = .saveResume c .resolved) := by
  cases e with
  | poll r => cases r <;> exact Or.inl rfl
  | uploadStart file =>
    left
    by_cases hr : uploadRejected file = true <;>
      simp [step, handle, handleFileUploadStart, hr, run, Action.apply]
  | uploadResume r =>
    left
    cases r with
    | resolved data =>
      by_cases ht : data.success.truthy = true <;>
        simp [step, handle, handleFileUploadResume, ht, run, Action.apply]
    | threw error => rfl
  | checkServices r => cases r <;> exact Or.inl rfl
  | loadConfig r =>
    cases r with
    | none => exact Or.inl rfl
    | some body => exact Or.inr (Or.inl ⟨body, rfl⟩)
  | download r => cases r <;> exact Or.inl rfl
  | settingsButton =>
    left
    cases hb : s.showSettings <;>
      simp [step, handle, settingsButton, hb, run, Action.apply]
  | closeSettings => exact Or.inl rfl
  | change key value => exact Or.inl rfl
  | saveStart =>
    left
    cases hl : s.localConfig <;>
      simp [step, handle, hl, run, onSaveStart, Action.apply]
  | saveResume newConfig r =>
    cases r with
    | resolved => exact Or.inr (Or.inr ⟨newConfig, rfl⟩)
    | threw error => exact Or.inl rfl

/-- C9: editing the draft, closing the settings panel (by `onClose` or by the
settings button) and a save whose request fails leave the confirmed config
unchanged; the failed save leaves the whole state unchanged, so `showSettings`
and the draft `localConfig` are as before; a save that succeeds sets the
confirmed config to the submitted draft and closes the panel; and no event
other than a resolved load or a resolved save changes the confirmed config. -/
theorem confirmed_config_changes_only_by_load_or_save (s : AppState) (key : String)
    (value : CfgVal) (newConfig : Config) (error : CaughtError) (e : Event) :
    (run s (handleChange key value)).config = s.config ∧
    (run s onClose).config = s.config ∧
    (run s (settingsButton s)).config = s.config ∧
    run s (onSave newConfig (.threw error)) = s ∧
    run s (handleSave s (.threw error)) = s ∧
    (run s (onSave newConfig .resolved)).config = some newConfig ∧
    (run s (onSave newConfig .resolved)).showSettings = false ∧
    (run s (onSave newConfig .resolved)).localConfig = none ∧
    (run s (handleSave s .resolved)).config =
      (match s.localConfig with
       | some draft => some draft
       | none => s.config) ∧
    ((step s e).config = s.config ∨
      (∃ body : Option Config, e = .loadConfig (some body)) ∨
      (∃ c : Config, e = .saveResume c .resolved)) := by
  refine ⟨rfl, rfl, ?_, rfl, ?_, rfl, rfl, rfl, ?_, step_config s e⟩
  · cases hb : s.showSettings <;> simp [settingsButton, hb, run, Action.apply]
  · cases hl : s.localConfig <;> simp [handleSave, hl, run, onSave, onSaveStart, onSaveResume,
      Action.apply]
  · cases hl : s.localConfig <;> simp [handleSave, hl, run, onSave, onSaveStart, onSaveResume,
      Action.apply]

/-! ## The split-keywords field -/

theorem dropWhile_of_head (p : Char → Bool) (l : List Char)
    (h : l.head?.any p = false) : l.dropWhile p = l := by
  cases l with
  | nil => rfl
  | cons a t =>
    have ha : p a = false := by simpa using h
    simp [List.dropWhile_cons, ha]

theorem jsTrim_of_clean (k : List Char)
    (hh : k.head?.any isWhiteSpace = false)
    (hl : k.getLast?.any isWhiteSpace = false) : jsTrim k = k := by
  unfold jsTrim
  rw [dropWhile_of_head _ k hh, dropWhile_of_head _ k.reverse, List.reverse_reverse]
  rw [List.head?_reverse]
  exact hl

theorem jsTrim_space_cons (k : List Char)
    (hh : k.head?.any isWhiteSpace = false)
    (hl : k.getLast?.any isWhiteSpace = false) : jsTrim (' ' :: k) = k := by
  have hs : isWhiteSpace ' ' = true := by decide
  have : jsTrim (' ' :: k) = jsTrim k := by
    unfold jsTrim
    rw [List.dropWhile_cons_of_pos hs]
  rw [this, jsTrim_of_clean k hh hl]

theorem jsSplit_append (sep : Char) (k : List Char) (hk : sep ∉ k) :
    ∀ (t p : List Char) (ps : List (List Char)), jsSplit sep t = p :: ps →
      jsSplit sep (k ++ t) = (k ++ p) :: ps := by
  induction k with
  | nil => intro t p ps h; simpa using h
  | cons a r ih =>
    intro t p ps h
    have ha : a ≠ sep := fun e => hk (by simp [e])
    have hr : sep ∉ r := fun e => hk (List.mem_cons_of_mem _ e)
    have := ih hr t p ps h
    simp [jsSplit, ha, this]

theorem jsSplit_jsJoin (k : List Char) (rest : List (List Char)) :
    (∀ x ∈ k :: rest, ',' ∉ x) →
      jsSplit ',' (jsJoin [',', ' '] (k :: rest)) = k :: rest.map (fun x => ' ' :: x) := by
  induction rest generalizing k with
  | nil =>
    intro h
    have := jsSplit_append ',' k (h k (List.mem_cons_self _ _)) [] [] [] rfl
    simpa [jsJoin] using this
  | cons k₂ rest₂ ih =>
    intro h
    have h₂ := ih k₂ (fun x hx => h x (List.mem_cons_of_mem _ hx))
    have hsp : jsSplit ',' (',' :: ' ' :: jsJoin [',', ' '] (k₂ :: rest₂)) =
        [] :: (' ' :: k₂) :: rest₂.map (fun x => ' ' :: x) := by
      have hne : ' ' ≠ ',' := by decide
      simp [jsSplit, h₂, hne]
    have := jsSplit_append ',' k (h k (List.mem_cons_self _ _)) _ _ _ hsp
    simpa [jsJoin] using this

theorem keywordsValue_some (ks : List (List Char)) :
    keywordsValue (some ks) = jsJoin [',', ' '] ks := by
  unfold keywordsValue
  by_cases h : jsJoin [',', ' '] ks = []
  · simp [h]
  · simp [h]

/-- C10: for a non-empty list of keywords none of which contains a comma or
begins or ends with white space, parsing the text the field shows for the list
gives the list back; for the empty list the field shows the empty text, and
parsing that gives the list whose one element is the empty string. -/
theorem keywords_round_trip (ks : List (List Char)) (hne : ks ≠ [])
    (hk : ∀ k ∈ ks, ',' ∉ k ∧ k.head?.any isWhiteSpace = false ∧
      k.getLast?.any isWhiteSpace = false) :
    keywordsParse (keywordsValue (some ks)) = ks ∧
    keywordsValue (some ks) = jsJoin [',', ' '] ks ∧
    keywordsValue (some []) = [] ∧
    keywordsParse (keywordsValue (some [])) = [[]] ∧
    keywordsParse (keywordsValue (some [])) ≠ [] := by
  refine ⟨?_, keywordsValue_some ks, rfl, by decide, by decide⟩
  cases ks with
  | nil => exact absurd rfl hne
  | cons k rest =>
    rw [keywordsValue_some, keywordsParse, jsSplit_jsJoin k rest (fun x hx => (hk x hx).1)]
    have hk₀ := hk k (List.mem_cons_self _ _)
    rw [List.map_cons, jsTrim_of_clean k hk₀.2.1 hk₀.2.2, List.map_map]
    congr 1
    have hrest : ∀ x ∈ rest, (jsTrim ∘ fun x => ' ' :: x) x = id x := by
      intro x hx
      have hx' := hk x (List.mem_cons_of_mem _ hx)
      exact jsTrim_space_cons x hx'.2.1 hx'.2.2
    rw [List.map_congr_left hrest, List.map_id]

theorem keywords_round_trip_witness :
    ((["Глава".toList, "Раздел".toList, "Тема".toList] : List (List Char)) ≠ [] ∧
      ∀ k ∈ (["Глава".toList, "Раздел".toList, "Тема".toList] : List (List Char)),
        ',' ∉ k ∧ k.head?.any isWhiteSpace = false ∧ k.getLast?.any isWhiteSpace = false) ∧
    keywordsParse (keywordsValue (some ["Глава".toList, "Раздел".toList, "Тема".toList]))
      = ["Глава".toList, "Раздел".toList, "Тема".toList] :=
  ⟨⟨by decide, by decide⟩,
    (keywords_round_trip ["Глава".toList, "Раздел".toList, "Тема".toList]
      (by decide) (by decide)).1⟩

end Conspektor
